import Mathlib

/-!
Shallow embedding of the flappy-bird game core (src/main.rs, bevy 0.10 app).

Conventions of the embedding:
* `f32` values are modelled as exact rationals (`ℚ`); the source constants are
  all exactly representable.
* A bevy `Transform` is flattened into the `x`, `y`, `rotation` fields of each
  entity record.  `Quat::from_rotation_z(angle)` is modelled by storing the
  rotation angle; since `angle = vy / 5 * PI / 4`, the stored value is the
  angle divided by `PI` (i.e. `vy / 5 / 4`), which keeps the state rational.
* The entity population of the program is fixed by its startup systems: one
  player (components `Player`, `Velocity`, `Mass`), a list of pipes
  (`Pipe`, `Velocity`), and four scroll segments (`Floor`,
  `InfiniteScrolling`).  A bevy query such as `Query<(&mut Velocity, &Mass)>`
  therefore matches exactly the player, and `Query<(&mut Transform,
  &InfiniteScrolling)>` exactly the segments.
* `NextState::set` followed by bevy applying the transition (running the
  `OnEnter(Menu)` schedule, i.e. `setup_menu_system`) is folded into the step
  that requests it; `run_if(in_state(..))` conditions are evaluated against
  the mode at the start of the step, as bevy evaluates them against the
  `State` resource of the current frame.
* Per-frame systems are composed in their `add_system` declaration order from
  `main`; the cosmetic `animate_sprite_system` (sprite frame index) is not
  part of any claim and is omitted from the state.
* Randomness (`thread_rng().gen_range(lo..hi)`) is modelled by a parameter
  `gapBottom` constrained to the half-open interval `[lo, hi)`.
* The two fixed-rate cadences (1 s pipe cadence, 1/30 s collision cadence)
  are modelled as labelled nondeterministic steps of the transition relation.
-/

namespace Flappy

/-! ### Constants (src/main.rs lines 10-22) -/

def SPEED : ℚ := 4.5

def PIPE_GAP : ℚ := 150

def PIPE_HEIGHT : ℚ := 160 * 3

def FLAP_SPEED : ℚ := 4.5

def WINDOW_WIDTH : ℚ := 400

def WINDOW_HEIGHT : ℚ := 700

def MIN_PIPE_OFFSET : ℚ := 100

def PIPE_WIDTH : ℚ := 26 * 3

def FLOOR_SEGMENT_WIDTH : ℚ := 168 * 3

def FLOOR_HEIGHT : ℚ := 50

def BACKGROUND_SEGMENT_WIDTH : ℚ := 144 * 3

/-! ### Data model -/

/-- `enum GameState { Menu, InGame }`, `#[default] Menu`. -/
inductive GameState where
  | Menu : GameState
  | InGame : GameState
deriving DecidableEq

/-- The player entity: `Transform` (x, y, rotation) and `Velocity` (vx, vy).
It also carries the `Mass` marker component (the only entity that does). -/
structure Player where
  x : ℚ
  y : ℚ
  vx : ℚ
  vy : ℚ
  rotation : ℚ
deriving DecidableEq

/-- A pipe entity: `Transform` translation and `Velocity`. -/
structure Pipe where
  x : ℚ
  y : ℚ
  vx : ℚ
  vy : ℚ
deriving DecidableEq

/-- A scroll segment (`Floor` + `InfiniteScrolling` components):
`Transform` translation plus the `segment_width` and `speed` parameters. -/
structure Segment where
  x : ℚ
  y : ℚ
  segment_width : ℚ
  speed : ℚ
deriving DecidableEq

/-- The world state: current game mode plus all gameplay entities. -/
structure World where
  mode : GameState
  player : Player
  pipes : List Pipe
  floors : List Segment
deriving DecidableEq

/-! ### Startup systems -/

/-- `spawn_player`: `Transform::from_xyz(-150., 0., 0.)`, `Velocity { x: 0., y: 0. }`. -/
def initialPlayer : Player :=
  { x := -150, y := 0, vx := 0, vy := 0, rotation := 0 }

/-- `spawn_floor_system`: two floor segments at
`(-WINDOW_WIDTH/2 + FLOOR_SEGMENT_WIDTH, -WINDOW_HEIGHT/2 + FLOOR_HEIGHT)` and
`(-WINDOW_WIDTH/2, -WINDOW_HEIGHT/2 + FLOOR_HEIGHT)`, speed `-SPEED`. -/
def initialFloorSegments : List Segment :=
  [ { x := -WINDOW_WIDTH / 2 + FLOOR_SEGMENT_WIDTH
    , y := -WINDOW_HEIGHT / 2 + FLOOR_HEIGHT
    , segment_width := FLOOR_SEGMENT_WIDTH
    , speed := -SPEED }
  , { x := -WINDOW_WIDTH / 2
    , y := -WINDOW_HEIGHT / 2 + FLOOR_HEIGHT
    , segment_width := FLOOR_SEGMENT_WIDTH
    , speed := -SPEED } ]

/-- `spawn_background_system`: two backdrop segments at
`(-WINDOW_WIDTH/2 + BACKGROUND_SEGMENT_WIDTH, WINDOW_HEIGHT/2)` and
`(-WINDOW_WIDTH/2, WINDOW_HEIGHT/2)`, speed `-SPEED * 0.2`. -/
def initialBackgroundSegments : List Segment :=
  [ { x := -WINDOW_WIDTH / 2 + BACKGROUND_SEGMENT_WIDTH
    , y := WINDOW_HEIGHT / 2
    , segment_width := BACKGROUND_SEGMENT_WIDTH
    , speed := -SPEED * 0.2 }
  , { x := -WINDOW_WIDTH / 2
    , y := WINDOW_HEIGHT / 2
    , segment_width := BACKGROUND_SEGMENT_WIDTH
    , speed := -SPEED * 0.2 } ]

/-- The world after all startup systems have run: mode defaults to `Menu`,
no pipes exist yet. -/
def initialWorld : World :=
  { mode := GameState.Menu
  , player := initialPlayer
  , pipes := []
  , floors := initialFloorSegments ++ initialBackgroundSegments }

/-! ### Per-frame systems -/

/-- `flap_system` (runs under `run_if(in_state(GameState::InGame))`):
on `just_pressed(Space)` set `player_vel.y = FLAP_SPEED`. -/
def flap_system (pressed : Bool) (w : World) : World :=
  if pressed then
    { w with player := { w.player with vy := FLAP_SPEED } }
  else w

/-- `gravity_system` (runs under `run_if(in_state(GameState::InGame))`):
`acceleration = 9.8 * delta_seconds`; for every entity with `Velocity` and
`Mass` (only the player), `velocity.y -= acceleration`. -/
def gravity_system (dt : ℚ) (w : World) : World :=
  let acceleration := 9.8 * dt
  { w with player := { w.player with vy := w.player.vy - acceleration } }

/-- The body of `tilt_with_vel_system` for one entity:
`angle = velocity.y / 5. * PI / 4.; rotation = Quat::from_rotation_z(angle)`.
The stored rotation is the angle divided by `PI`. -/
def tiltOverPi (vy : ℚ) : ℚ := vy / 5 / 4

/-- `tilt_with_vel_system` (registered without a mode condition): queries
`(&mut Transform, &Velocity), With<Player>` — only the player. -/
def tilt_with_vel_system (w : World) : World :=
  { w with player := { w.player with rotation := tiltOverPi w.player.vy } }

/-- The body of `movement_system` for one entity with a `Velocity`:
`translation.x += velocity.x; translation.y += velocity.y`. -/
def movePlayer (p : Player) : Player :=
  { p with x := p.x + p.vx, y := p.y + p.vy }

/-- `movement_system` applied to a pipe entity. -/
def movePipe (p : Pipe) : Pipe :=
  { p with x := p.x + p.vx, y := p.y + p.vy }

/-- `movement_system` (registered without a mode condition): every entity
with `Transform` and `Velocity` — the player and all pipes. -/
def movement_system (w : World) : World :=
  { w with player := movePlayer w.player, pipes := w.pipes.map movePipe }

/-- The wrap rule inside `infinite_scrolling_system`: after movement, if
`translation.x < -WINDOW_WIDTH / 2. - segment_width` then
`translation.x += segment_width * 2.`. -/
def wrapX (sw : ℚ) (x : ℚ) : ℚ :=
  if x < -WINDOW_WIDTH / 2 - sw then x + sw * 2 else x

/-- One `infinite_scrolling_system` update of a segment x-coordinate:
`translation.x += speed` then the wrap rule. -/
def scrollStepX (sw sp : ℚ) (x : ℚ) : ℚ :=
  wrapX sw (x + sp)

/-- `infinite_scrolling_system` applied to one segment entity. -/
def scrollSegment (s : Segment) : Segment :=
  { s with x := scrollStepX s.segment_width s.speed s.x }

/-- `infinite_scrolling_system` (registered without a mode condition):
every entity with `Transform` and `InfiniteScrolling` — the four segments. -/
def infinite_scrolling_system (w : World) : World :=
  { w with floors := w.floors.map scrollSegment }

/-- `start_game_system` (runs under `run_if(in_state(GameState::Menu))`):
on `just_pressed(Space)` request `GameState::InGame`.  `OnEnter(InGame)` has
no hook, so the transition only changes the mode. -/
def start_game_system (pressed : Bool) (w : World) : World :=
  if pressed then { w with mode := GameState.InGame } else w

/-- One whole `Update`-schedule frame, systems composed in `add_system`
declaration order from `main`; each `run_if(in_state(..))` condition reads
the mode current at the start of the frame.  `pressed` is the
`just_pressed(Space)` signal of this frame, `dt` the frame delta in
seconds. -/
def frameUpdate (pressed : Bool) (dt : ℚ) (w : World) : World :=
  let m := w.mode
  let w1 := infinite_scrolling_system w
  let w2 := if m = GameState.Menu then start_game_system pressed w1 else w1
  let w3 := if m = GameState.InGame then flap_system pressed w2 else w2
  let w4 := if m = GameState.InGame then gravity_system dt w3 else w3
  let w5 := tilt_with_vel_system w4
  movement_system w5

/-! ### Fixed-cadence systems -/

/-- Lower bound of the `gen_range` interval for `gap_bottom`:
`-WINDOW_HEIGHT / 2. + MIN_PIPE_OFFSET`. -/
def gapBottomLo : ℚ := -WINDOW_HEIGHT / 2 + MIN_PIPE_OFFSET

/-- Upper (excluded) bound of the `gen_range` interval for `gap_bottom`:
`WINDOW_HEIGHT / 2. - MIN_PIPE_OFFSET - PIPE_GAP`. -/
def gapBottomHi : ℚ := WINDOW_HEIGHT / 2 - MIN_PIPE_OFFSET - PIPE_GAP

/-- The upper pipe spawned by `spawn_pipes_system`:
`Transform::from_xyz(400., gap_top + PIPE_HEIGHT, 0.)`,
`Velocity { x: -SPEED, y: 0. }` (with `gap_top = gap_bottom + PIPE_GAP`). -/
def upperPipe (gapBottom : ℚ) : Pipe :=
  { x := 400, y := (gapBottom + PIPE_GAP) + PIPE_HEIGHT, vx := -SPEED, vy := 0 }

/-- The lower pipe spawned by `spawn_pipes_system`:
`Transform::from_xyz(400., gap_bottom, 0.)`, `Velocity { x: -SPEED, y: 0. }`. -/
def lowerPipe (gapBottom : ℚ) : Pipe :=
  { x := 400, y := gapBottom, vx := -SPEED, vy := 0 }

/-- `spawn_pipes_system` (1 s cadence, `in_state(InGame)`): draw
`gap_bottom` from `[gapBottomLo, gapBottomHi)` and spawn the two pipes. -/
def spawn_pipes_system (gapBottom : ℚ) (w : World) : World :=
  { w with pipes := upperPipe gapBottom :: lowerPipe gapBottom :: w.pipes }

/-- `remove_pipes_system` (1 s cadence, `in_state(InGame)`): despawn every
pipe with `translation.x < -WINDOW_WIDTH / 2. - PIPE_WIDTH`. -/
def remove_pipes_system (w : World) : World :=
  { w with pipes := w.pipes.filter (fun p => ! decide (p.x < -WINDOW_WIDTH / 2 - PIPE_WIDTH)) }

/-- `bevy::sprite::collide_aabb::collide(a_pos, a_size, b_pos, b_size).is_some()`:
both boxes are centered at their `pos` with full extents `size`; overlap
holds when all four comparisons are strict. -/
def collideIsSome (aPos : ℚ × ℚ) (aSize : ℚ × ℚ) (bPos : ℚ × ℚ) (bSize : ℚ × ℚ) : Bool :=
  let aMin := (aPos.1 - aSize.1 / 2, aPos.2 - aSize.2 / 2)
  let aMax := (aPos.1 + aSize.1 / 2, aPos.2 + aSize.2 / 2)
  let bMin := (bPos.1 - bSize.1 / 2, bPos.2 - bSize.2 / 2)
  let bMax := (bPos.1 + bSize.1 / 2, bPos.2 + bSize.2 / 2)
  decide (aMin.1 < bMax.1) && decide (aMax.1 > bMin.1) &&
    decide (aMin.2 < bMax.2) && decide (aMax.2 > bMin.2)

/-- The per-pipe collision test of `game_over_system`:
`collide(transform.translation, Vec2::new(45., 45.),
pipe.translation + Vec3::new(PIPE_WIDTH / 2., -PIPE_HEIGHT / 2., 0.),
Vec2::new(PIPE_WIDTH, PIPE_HEIGHT)).is_some()`. -/
def hitsPipe (pl : Player) (p : Pipe) : Bool :=
  collideIsSome (pl.x, pl.y) (45, 45)
    (p.x + PIPE_WIDTH / 2, p.y + -(PIPE_HEIGHT / 2)) (PIPE_WIDTH, PIPE_HEIGHT)

/-- The `game_over` flag computed by `game_over_system`: true when
`translation.y < -WINDOW_HEIGHT / 2. + FLOOR_HEIGHT` or some pipe collides
(the pipe loop `break`s on the first hit, which `List.any` mirrors by
short-circuiting). -/
def gameOverFlag (w : World) : Bool :=
  decide (w.player.y < -WINDOW_HEIGHT / 2 + FLOOR_HEIGHT) ||
    w.pipes.any (hitsPipe w.player)

/-- `setup_menu_system`, the `OnEnter(GameState::Menu)` hook:
`velocity.y = 0.; transform.translation.y = 0.;` and despawn every pipe. -/
def setup_menu_system (w : World) : World :=
  { w with player := { w.player with vy := 0, y := 0 }, pipes := [] }

/-- The transition into `Menu`: the mode change requested through
`NextState::set(GameState::Menu)` together with the `OnEnter(Menu)` schedule
(`setup_menu_system`). -/
def enterMenu (w : World) : World :=
  setup_menu_system { w with mode := GameState.Menu }

/-- `game_over_system` (1/30 s cadence, `in_state(InGame)`) together with the
transition it may request: if the `game_over` flag is set, go to `Menu`
(running the `OnEnter(Menu)` hook), else nothing changes. -/
def game_over_system (w : World) : World :=
  if gameOverFlag w then enterMenu w else w

/-! ### The step relation -/

/-- Labels of the scheduler: a per-frame `Update` run (with its input signal
and frame delta), and the three fixed-cadence systems. -/
inductive SysLabel where
  | frame : Bool → ℚ → SysLabel
  | spawnTick : ℚ → SysLabel
  | removeTick : SysLabel
  | collideTick : SysLabel

/-- One scheduler step of the app.  Fixed-cadence steps carry their
`run_if(in_state(GameState::InGame))` guard; the spawn step carries the
`gen_range` bounds on the random draw. -/
inductive Step : SysLabel → World → World → Prop where
  | frame (w : World) (pressed : Bool) (dt : ℚ) (hdt : 0 ≤ dt) :
      Step (SysLabel.frame pressed dt) w (frameUpdate pressed dt w)
  | spawnTick (w : World) (gapBottom : ℚ) (hm : w.mode = GameState.InGame)
      (hlo : gapBottomLo ≤ gapBottom) (hhi : gapBottom < gapBottomHi) :
      Step (SysLabel.spawnTick gapBottom) w (spawn_pipes_system gapBottom w)
  | removeTick (w : World) (hm : w.mode = GameState.InGame) :
      Step SysLabel.removeTick w (remove_pipes_system w)
  | collideTick (w : World) (hm : w.mode = GameState.InGame) :
      Step SysLabel.collideTick w (game_over_system w)

/-- Some step, under any label. -/
def StepAny (w v : World) : Prop := ∃ l, Step l w v

/-- A world reachable from `initialWorld` by scheduler steps. -/
def Reachable (w : World) : Prop :=
  Relation.ReflTransGen StepAny initialWorld w

/-! ### Projection lemmas for the individual systems -/

@[simp] theorem infinite_scrolling_player (w : World) :
    (infinite_scrolling_system w).player = w.player := rfl

@[simp] theorem infinite_scrolling_mode (w : World) :
    (infinite_scrolling_system w).mode = w.mode := rfl

@[simp] theorem infinite_scrolling_pipes (w : World) :
    (infinite_scrolling_system w).pipes = w.pipes := rfl

@[simp] theorem infinite_scrolling_floors (w : World) :
    (infinite_scrolling_system w).floors = w.floors.map scrollSegment := rfl

@[simp] theorem flap_system_mode (p : Bool) (w : World) :
    (flap_system p w).mode = w.mode := by
  unfold flap_system; split <;> rfl

@[simp] theorem flap_system_pipes (p : Bool) (w : World) :
    (flap_system p w).pipes = w.pipes := by
  unfold flap_system; split <;> rfl

@[simp] theorem flap_system_floors (p : Bool) (w : World) :
    (flap_system p w).floors = w.floors := by
  unfold flap_system; split <;> rfl

@[simp] theorem flap_system_player_x (p : Bool) (w : World) :
    (flap_system p w).player.x = w.player.x := by
  unfold flap_system; split <;> rfl

@[simp] theorem flap_system_player_y (p : Bool) (w : World) :
    (flap_system p w).player.y = w.player.y := by
  unfold flap_system; split <;> rfl

@[simp] theorem flap_system_player_vx (p : Bool) (w : World) :
    (flap_system p w).player.vx = w.player.vx := by
  unfold flap_system; split <;> rfl

@[simp] theorem flap_system_true_vy (w : World) :
    (flap_system true w).player.vy = FLAP_SPEED := rfl

@[simp] theorem flap_system_false (w : World) :
    flap_system false w = w := rfl

@[simp] theorem gravity_system_mode (dt : ℚ) (w : World) :
    (gravity_system dt w).mode = w.mode := rfl

@[simp] theorem gravity_system_pipes (dt : ℚ) (w : World) :
    (gravity_system dt w).pipes = w.pipes := rfl

@[simp] theorem gravity_system_floors (dt : ℚ) (w : World) :
    (gravity_system dt w).floors = w.floors := rfl

@[simp] theorem gravity_system_player_x (dt : ℚ) (w : World) :
    (gravity_system dt w).player.x = w.player.x := rfl

@[simp] theorem gravity_system_player_y (dt : ℚ) (w : World) :
    (gravity_system dt w).player.y = w.player.y := rfl

@[simp] theorem gravity_system_player_vx (dt : ℚ) (w : World) :
    (gravity_system dt w).player.vx = w.player.vx := rfl

@[simp] theorem gravity_system_player_vy (dt : ℚ) (w : World) :
    (gravity_system dt w).player.vy = w.player.vy - 9.8 * dt := rfl

@[simp] theorem tilt_mode (w : World) :
    (tilt_with_vel_system w).mode = w.mode := rfl

@[simp] theorem tilt_pipes (w : World) :
    (tilt_with_vel_system w).pipes = w.pipes := rfl

@[simp] theorem tilt_floors (w : World) :
    (tilt_with_vel_system w).floors = w.floors := rfl

@[simp] theorem tilt_player_x (w : World) :
    (tilt_with_vel_system w).player.x = w.player.x := rfl

@[simp] theorem tilt_player_y (w : World) :
    (tilt_with_vel_system w).player.y = w.player.y := rfl

@[simp] theorem tilt_player_vx (w : World) :
    (tilt_with_vel_system w).player.vx = w.player.vx := rfl

@[simp] theorem tilt_player_vy (w : World) :
    (tilt_with_vel_system w).player.vy = w.player.vy := rfl

@[simp] theorem tilt_player_rot (w : World) :
    (tilt_with_vel_system w).player.rotation = tiltOverPi w.player.vy := rfl

@[simp] theorem movement_mode (w : World) :
    (movement_system w).mode = w.mode := rfl

@[simp] theorem movement_floors (w : World) :
    (movement_system w).floors = w.floors := rfl

@[simp] theorem movement_pipes (w : World) :
    (movement_system w).pipes = w.pipes.map movePipe := rfl

@[simp] theorem movement_player_x (w : World) :
    (movement_system w).player.x = w.player.x + w.player.vx := rfl

@[simp] theorem movement_player_y (w : World) :
    (movement_system w).player.y = w.player.y + w.player.vy := rfl

@[simp] theorem movement_player_vx (w : World) :
    (movement_system w).player.vx = w.player.vx := rfl

@[simp] theorem movement_player_vy (w : World) :
    (movement_system w).player.vy = w.player.vy := rfl

@[simp] theorem movement_player_rot (w : World) :
    (movement_system w).player.rotation = w.player.rotation := rfl

@[simp] theorem start_game_player (p : Bool) (w : World) :
    (start_game_system p w).player = w.player := by
  unfold start_game_system; split <;> rfl

@[simp] theorem start_game_pipes (p : Bool) (w : World) :
    (start_game_system p w).pipes = w.pipes := by
  unfold start_game_system; split <;> rfl

@[simp] theorem start_game_floors (p : Bool) (w : World) :
    (start_game_system p w).floors = w.floors := by
  unfold start_game_system; split <;> rfl

@[simp] theorem start_game_true_mode (w : World) :
    (start_game_system true w).mode = GameState.InGame := rfl

@[simp] theorem start_game_false (w : World) :
    start_game_system false w = w := rfl

/-- In `Menu` mode a frame is scrolling, `start_game_system`, tilt and
movement. -/
theorem frameUpdate_menu (p : Bool) (dt : ℚ) (w : World)
    (h : w.mode = GameState.Menu) :
    frameUpdate p dt w =
      movement_system (tilt_with_vel_system
        (start_game_system p (infinite_scrolling_system w))) := by
  simp [frameUpdate, h]

/-- In `InGame` mode a frame is scrolling, flap, gravity, tilt and
movement. -/
theorem frameUpdate_ingame (p : Bool) (dt : ℚ) (w : World)
    (h : w.mode = GameState.InGame) :
    frameUpdate p dt w =
      movement_system (tilt_with_vel_system
        (gravity_system dt (flap_system p (infinite_scrolling_system w)))) := by
  simp [frameUpdate, h]

/-! ### Claim C3 -/

/-- Claim C3: while mode = InGame, a rising-edge flap input sets the avatar's
vertical velocity to exactly the flap constant `FLAP_SPEED`, overwriting (not
adding to) whatever the prior vertical velocity was, and leaves the avatar's
horizontal velocity unchanged.  The last conjunct places the operation inside
an `InGame` frame: the frame's resulting vertical velocity is determined by
`FLAP_SPEED` (and the gravity term of the same frame) with no dependence on
the prior vertical velocity. -/
theorem flap_sets_vertical_velocity (w : World) (dt : ℚ) :
    (flap_system true w).player.vy = FLAP_SPEED ∧
    (flap_system true w).player.vx = w.player.vx ∧
    (w.mode = GameState.InGame →
      (frameUpdate true dt w).player.vy = FLAP_SPEED - 9.8 * dt ∧
      (frameUpdate true dt w).player.vx = w.player.vx) := by
  refine ⟨rfl, rfl, fun h => ?_⟩
  rw [frameUpdate_ingame _ _ _ h]
  simp

/-- Witness for C3 at a concrete `InGame` world. -/
theorem flap_sets_vertical_velocity_witness :
    (frameUpdate true 0 { initialWorld with mode := GameState.InGame }).player.vy
      = FLAP_SPEED - 9.8 * 0 :=
  ((flap_sets_vertical_velocity { initialWorld with mode := GameState.InGame } 0).2.2
    rfl).1

/-! ### Claim C4 -/

/-- Claim C4: the gravity operation decreases the avatar's vertical velocity by
exactly `9.8 * dt` and touches nothing else: the avatar's horizontal velocity,
the pipes (the only other entities carrying a `Velocity`, which lack the `Mass`
flag) and the scroll segments are unchanged.  The final conjunct runs the
operation inside an `InGame` frame (no flap input): across the whole frame the
vertical velocity drops by exactly `9.8 * dt`. -/
theorem gravity_decreases_vy (w : World) (dt : ℚ) :
    (gravity_system dt w).player.vy = w.player.vy - 9.8 * dt ∧
    (gravity_system dt w).player.vx = w.player.vx ∧
    (gravity_system dt w).pipes = w.pipes ∧
    (gravity_system dt w).floors = w.floors ∧
    (w.mode = GameState.InGame →
      (frameUpdate false dt w).player.vy = w.player.vy - 9.8 * dt) := by
  refine ⟨rfl, rfl, rfl, rfl, fun h => ?_⟩
  rw [frameUpdate_ingame _ _ _ h]
  simp

/-- Witness for C4 at a concrete `InGame` world. -/
theorem gravity_decreases_vy_witness :
    (frameUpdate false 1 { initialWorld with mode := GameState.InGame }).player.vy
      = initialPlayer.vy - 9.8 * 1 :=
  (gravity_decreases_vy { initialWorld with mode := GameState.InGame } 1).2.2.2.2 rfl

/-! ### Claim C6 -/

/-- Claim C6: the retirement pass keeps an obstacle entity if and only if it
was present before and its x-position is not strictly less than
`-WINDOW_WIDTH / 2 - PIPE_WIDTH`; equivalently, a pipe is despawned exactly
when its x has crossed that threshold. -/
theorem remove_pipes_iff (w : World) (p : Pipe) :
    p ∈ (remove_pipes_system w).pipes ↔
      p ∈ w.pipes ∧ ¬(p.x < -WINDOW_WIDTH / 2 - PIPE_WIDTH) := by
  simp [remove_pipes_system, List.mem_filter]

/-! ### Claim C1 -/

/-- A pipe entity as spawned (velocity `(-SPEED, 0)`) placed at `(x, y)`. -/
def pipeAt (x y : ℚ) : Pipe := { x := x, y := y, vx := -SPEED, vy := 0 }

/-- The game-over condition as claim C1 words it: the avatar's `position.y`
below the floor line, or the avatar's axis-aligned box with HALF-extent 45
centered at its position overlapping some obstacle's box (width `PIPE_WIDTH`,
height `PIPE_HEIGHT`, anchored at the obstacle's corner) by a nonzero margin
on both axes.  Written from the claim's words, to be compared with
`gameOverFlag`, which is read off the source. -/
def claimedGameOver (w : World) : Prop :=
  w.player.y < -WINDOW_HEIGHT / 2 + FLOOR_HEIGHT ∨
    ∃ p ∈ w.pipes,
      w.player.x - 45 < p.x + PIPE_WIDTH ∧ p.x < w.player.x + 45 ∧
      w.player.y - 45 < p.y ∧ p.y - PIPE_HEIGHT < w.player.y + 45

/-- The source's per-pipe test, unfolded: the 45-by-45 box centered at the
avatar (half-extent 22.5) strictly overlaps the box `[p.x, p.x + PIPE_WIDTH] ×
[p.y - PIPE_HEIGHT, p.y]` on both axes. -/
theorem hitsPipe_iff (pl : Player) (p : Pipe) :
    hitsPipe pl p = true ↔
      (pl.x - 45 / 2 < p.x + PIPE_WIDTH ∧ p.x < pl.x + 45 / 2 ∧
       pl.y - 45 / 2 < p.y ∧ p.y - PIPE_HEIGHT < pl.y + 45 / 2) := by
  simp only [hitsPipe, collideIsSome, Bool.and_eq_true, decide_eq_true_eq, gt_iff_lt]
  constructor
  · rintro ⟨⟨⟨h1, h2⟩, h3⟩, h4⟩
    exact ⟨by linarith, by linarith, by linarith, by linarith⟩
  · rintro ⟨h1, h2, h3, h4⟩
    exact ⟨⟨⟨by linarith, by linarith⟩, by linarith⟩, by linarith⟩

/-- `gameOverFlag` as a proposition. -/
theorem gameOverFlag_iff (w : World) :
    gameOverFlag w = true ↔
      (w.player.y < -WINDOW_HEIGHT / 2 + FLOOR_HEIGHT ∨
        ∃ p ∈ w.pipes,
          w.player.x - 45 / 2 < p.x + PIPE_WIDTH ∧ p.x < w.player.x + 45 / 2 ∧
          w.player.y - 45 / 2 < p.y ∧ p.y - PIPE_HEIGHT < w.player.y + 45 / 2) := by
  simp [gameOverFlag, List.any_eq_true, hitsPipe_iff]

@[simp] theorem enterMenu_mode (w : World) :
    (enterMenu w).mode = GameState.Menu := rfl

/-- A concrete `InGame` world refuting C1 as stated: avatar at `(0, 0)`, one
pipe at `(30, 100)`.  With the claimed half-extent 45 the boxes overlap
(`30 < 45`), with the source's 45-by-45 avatar box they do not
(`30 > 22.5`). -/
def cexWorldC1 : World :=
  { mode := GameState.InGame
  , player := { x := 0, y := 0, vx := 0, vy := 0, rotation := 0 }
  , pipes := [pipeAt 30 100]
  , floors := [] }

/-- Counterexample to claim C1 as stated: at `cexWorldC1` the claimed
condition (avatar half-extent 45) holds, yet the collision system does not
transition to `Menu`. -/
theorem game_over_cex :
    ¬ (((game_over_system cexWorldC1).mode = GameState.Menu) ↔
        claimedGameOver cexWorldC1) := by
  have hflag : gameOverFlag cexWorldC1 = false := by
    norm_num [gameOverFlag, hitsPipe, collideIsSome, cexWorldC1, pipeAt,
      WINDOW_HEIGHT, FLOOR_HEIGHT, PIPE_WIDTH, PIPE_HEIGHT]
  intro h
  have hclaim : claimedGameOver cexWorldC1 := by
    refine Or.inr ⟨pipeAt 30 100, List.mem_singleton.mpr rfl, ?_⟩
    norm_num [cexWorldC1, pipeAt, PIPE_WIDTH, PIPE_HEIGHT]
  have hm := h.mpr hclaim
  rw [show game_over_system cexWorldC1 = cexWorldC1 by
    simp [game_over_system, hflag]] at hm
  exact absurd hm (by simp [cexWorldC1])

/-- Claim C1 (amended: the avatar's box is the 45-by-45 box centered at its
position, i.e. half-extent 22.5, not 45): whenever the collision system runs
while mode = InGame, a transition to `Menu` is triggered if and only if the
avatar's `position.y` is below the floor line `-WINDOW_HEIGHT/2 +
FLOOR_HEIGHT`, or the avatar's box overlaps some obstacle's box (width
`PIPE_WIDTH`, height `PIPE_HEIGHT`, anchored at the obstacle's corner) by a
nonzero margin on both axes.  The obstacle iteration is `List.any`, which
short-circuits at the first overlapping obstacle exactly as the source's
`break` does. -/
theorem game_over_iff (w : World) (h : w.mode = GameState.InGame) :
    (game_over_system w).mode = GameState.Menu ↔
      (w.player.y < -WINDOW_HEIGHT / 2 + FLOOR_HEIGHT ∨
        ∃ p ∈ w.pipes,
          w.player.x - 45 / 2 < p.x + PIPE_WIDTH ∧ p.x < w.player.x + 45 / 2 ∧
          w.player.y - 45 / 2 < p.y ∧ p.y - PIPE_HEIGHT < w.player.y + 45 / 2) := by
  by_cases hf : gameOverFlag w
  · refine iff_of_true ?_ ((gameOverFlag_iff w).mp hf)
    simp [game_over_system, hf]
  · refine iff_of_false ?_ fun hc => hf ((gameOverFlag_iff w).mpr hc)
    have : game_over_system w = w := by
      simp [game_over_system, hf]
    rw [this, h]
    simp

/-- Witness for C1 (amended) at a concrete colliding world: avatar at
`(0, 0)`, pipe at `(-10, 30)` — the boxes overlap, so the system transitions
to `Menu`. -/
theorem game_over_iff_witness :
    (game_over_system
      { mode := GameState.InGame
      , player := { x := 0, y := 0, vx := 0, vy := 0, rotation := 0 }
      , pipes := [pipeAt (-10) 30]
      , floors := [] }).mode = GameState.Menu :=
  (game_over_iff _ rfl).mpr
    (Or.inr ⟨pipeAt (-10) 30, List.mem_singleton.mpr rfl, by
      norm_num [pipeAt, PIPE_WIDTH, PIPE_HEIGHT]⟩)

/-! ### Claim C5 -/

/-- Counterexample to claim C5 as stated: the two spawned obstacle entities
are not at the right viewport edge `WINDOW_WIDTH / 2 = 200` — the source
hard-codes `Transform::from_xyz(400., ..)`, one full window width right of
center. -/
theorem spawn_pipes_cex :
    ¬ (∀ p ∈ (spawn_pipes_system 0 initialWorld).pipes, p.x = WINDOW_WIDTH / 2) := by
  intro h
  have := h (upperPipe 0) (by simp [spawn_pipes_system])
  norm_num [upperPipe, WINDOW_WIDTH] at this

/-- Claim C5 (amended: the two obstacle entities spawn at `x = 400`, one full
window width right of center and hence off-screen beyond the right viewport
edge, not at the edge itself): every spawn tick creates exactly two obstacle
entities, both at `x = 400` with the identical constant leftward velocity
`(-SPEED, 0)` (so, the movement step preserving x-equality of equal-velocity
pipes, the two members share the same x-coordinate at all times thereafter);
gap-top minus gap-bottom equals `PIPE_GAP`, and gap-bottom lies in
`[-WINDOW_HEIGHT/2 + MIN_PIPE_OFFSET, WINDOW_HEIGHT/2 - MIN_PIPE_OFFSET -
PIPE_GAP]` for every draw of the random generator. -/
theorem spawn_pipes_spec (w : World) (gap : ℚ)
    (hlo : gapBottomLo ≤ gap) (hhi : gap < gapBottomHi) :
    (spawn_pipes_system gap w).pipes = upperPipe gap :: lowerPipe gap :: w.pipes ∧
    (spawn_pipes_system gap w).pipes.length = w.pipes.length + 2 ∧
    (upperPipe gap).x = 400 ∧ (lowerPipe gap).x = 400 ∧
    (upperPipe gap).vx = -SPEED ∧ (upperPipe gap).vy = 0 ∧
    (lowerPipe gap).vx = -SPEED ∧ (lowerPipe gap).vy = 0 ∧ (-SPEED : ℚ) < 0 ∧
    ((upperPipe gap).y - PIPE_HEIGHT) - (lowerPipe gap).y = PIPE_GAP ∧
    (-WINDOW_HEIGHT / 2 + MIN_PIPE_OFFSET ≤ (lowerPipe gap).y ∧
      (lowerPipe gap).y ≤ WINDOW_HEIGHT / 2 - MIN_PIPE_OFFSET - PIPE_GAP) ∧
    (∀ p q : Pipe, p.x = q.x → p.vx = q.vx → (movePipe p).x = (movePipe q).x) := by
  refine ⟨rfl, by simp [spawn_pipes_system], rfl, rfl, rfl, rfl, rfl, rfl,
    by norm_num [SPEED], by simp [upperPipe, lowerPipe], ⟨?_, ?_⟩,
    fun p q h1 h2 => by simp [movePipe, h1, h2]⟩
  · simpa [gapBottomLo, lowerPipe] using hlo
  · have : gap ≤ gapBottomHi := le_of_lt hhi
    simpa [gapBottomHi, lowerPipe] using this

/-- Witness for C5 (amended) at the draw `gap = 0`. -/
theorem spawn_pipes_spec_witness :
    ((upperPipe 0).y - PIPE_HEIGHT) - (lowerPipe 0).y = PIPE_GAP ∧
    (-WINDOW_HEIGHT / 2 + MIN_PIPE_OFFSET ≤ (lowerPipe 0).y ∧
      (lowerPipe 0).y ≤ WINDOW_HEIGHT / 2 - MIN_PIPE_OFFSET - PIPE_GAP) :=
  ⟨(spawn_pipes_spec initialWorld 0
      (by norm_num [gapBottomLo, WINDOW_HEIGHT, MIN_PIPE_OFFSET])
      (by norm_num [gapBottomHi, WINDOW_HEIGHT, MIN_PIPE_OFFSET, PIPE_GAP])).2.2.2.2.2.2.2.2.2.1,
   (spawn_pipes_spec initialWorld 0
      (by norm_num [gapBottomLo, WINDOW_HEIGHT, MIN_PIPE_OFFSET])
      (by norm_num [gapBottomHi, WINDOW_HEIGHT, MIN_PIPE_OFFSET, PIPE_GAP])).2.2.2.2.2.2.2.2.2.2.1⟩

/-! ### Claim C7 -/

/-- `n` frames of `infinite_scrolling_system` on one segment x-coordinate. -/
def scrollIterX (sw sp : ℚ) : ℕ → ℚ → ℚ
  | 0, x => x
  | n + 1, x => scrollStepX sw sp (scrollIterX sw sp n x)

/-- One scroll step moves both segments of a layer by the same speed and
wraps by multiples of `2 * sw`, so a difference of `sw` modulo `2 * sw` is
preserved. -/
theorem scrollStepX_diff (sw sp x y : ℚ) (k : ℤ)
    (h : x - y = sw + 2 * sw * k) :
    ∃ m : ℤ, scrollStepX sw sp x - scrollStepX sw sp y = sw + 2 * sw * m := by
  unfold scrollStepX wrapX
  split <;> split
  · exact ⟨k, by linarith⟩
  · exact ⟨k + 1, by push_cast; linarith⟩
  · exact ⟨k - 1, by push_cast; linarith⟩
  · exact ⟨k, by linarith⟩

/-- The difference invariant of `scrollStepX_diff`, iterated. -/
theorem scrollIterX_diff (sw sp x y : ℚ) (k : ℤ)
    (h : x - y = sw + 2 * sw * k) (n : ℕ) :
    ∃ m : ℤ, scrollIterX sw sp n x - scrollIterX sw sp n y = sw + 2 * sw * m := by
  induction n with
  | zero => exact ⟨k, h⟩
  | succ n ih =>
      obtain ⟨m, hm⟩ := ih
      exact scrollStepX_diff sw sp _ _ m hm

/-- Provided the per-frame displacement is at most `2 * sw` leftward, one
scroll step keeps a segment at or right of the wrap threshold. -/
theorem scrollStepX_lb (sw sp x : ℚ) (hsp : -(2 * sw) ≤ sp)
    (hx : -WINDOW_WIDTH / 2 - sw ≤ x) :
    -WINDOW_WIDTH / 2 - sw ≤ scrollStepX sw sp x := by
  unfold scrollStepX wrapX
  split
  · linarith
  · next hlt => linarith [not_lt.mp hlt]

/-- The lower bound of `scrollStepX_lb`, iterated from a start position at or
right of the wrap threshold. -/
theorem scrollIterX_lb (sw sp x : ℚ) (hsp : -(2 * sw) ≤ sp)
    (hx : -WINDOW_WIDTH / 2 - sw ≤ x) (n : ℕ) :
    -WINDOW_WIDTH / 2 - sw ≤ scrollIterX sw sp n x := by
  induction n with
  | zero => exact hx
  | succ n ih => exact scrollStepX_lb sw sp _ hsp ih

/-- At or right of the wrap threshold the wrap rule does nothing. -/
theorem wrapX_eq_self (sw x : ℚ) (h : -WINDOW_WIDTH / 2 - sw ≤ x) :
    wrapX sw x = x :=
  if_neg (not_lt.mpr h)

/-- Claim C7: scroll segments run every frame (first conjunct); for each
layer (ground: segment width `FLOOR_SEGMENT_WIDTH`, speed `-SPEED`; backdrop:
segment width `BACKGROUND_SEGMENT_WIDTH`, speed `-SPEED * 0.2`), at every
frame count the two segments' x-positions differ by exactly one segment width
modulo the wrap period `2 * segment_width`, and the wrap step is idempotent:
applying the wrap rule a second time, without intervening movement, to any
segment position ever reached changes nothing. -/
theorem scroll_layer_spec :
    (∀ (p : Bool) (dt : ℚ) (w : World),
        (frameUpdate p dt w).floors = w.floors.map scrollSegment) ∧
    (∀ n : ℕ, ∃ m : ℤ,
        scrollIterX FLOOR_SEGMENT_WIDTH (-SPEED) n
            (-WINDOW_WIDTH / 2 + FLOOR_SEGMENT_WIDTH) -
          scrollIterX FLOOR_SEGMENT_WIDTH (-SPEED) n (-WINDOW_WIDTH / 2) =
          FLOOR_SEGMENT_WIDTH + 2 * FLOOR_SEGMENT_WIDTH * m) ∧
    (∀ n : ℕ, ∃ m : ℤ,
        scrollIterX BACKGROUND_SEGMENT_WIDTH (-SPEED * 0.2) n
            (-WINDOW_WIDTH / 2 + BACKGROUND_SEGMENT_WIDTH) -
          scrollIterX BACKGROUND_SEGMENT_WIDTH (-SPEED * 0.2) n (-WINDOW_WIDTH / 2) =
          BACKGROUND_SEGMENT_WIDTH + 2 * BACKGROUND_SEGMENT_WIDTH * m) ∧
    (∀ (n : ℕ) (x0 : ℚ),
        x0 = -WINDOW_WIDTH / 2 + FLOOR_SEGMENT_WIDTH ∨ x0 = -WINDOW_WIDTH / 2 →
        wrapX FLOOR_SEGMENT_WIDTH
            (wrapX FLOOR_SEGMENT_WIDTH (scrollIterX FLOOR_SEGMENT_WIDTH (-SPEED) n x0)) =
          wrapX FLOOR_SEGMENT_WIDTH (scrollIterX FLOOR_SEGMENT_WIDTH (-SPEED) n x0)) ∧
    (∀ (n : ℕ) (x0 : ℚ),
        x0 = -WINDOW_WIDTH / 2 + BACKGROUND_SEGMENT_WIDTH ∨ x0 = -WINDOW_WIDTH / 2 →
        wrapX BACKGROUND_SEGMENT_WIDTH
            (wrapX BACKGROUND_SEGMENT_WIDTH
              (scrollIterX BACKGROUND_SEGMENT_WIDTH (-SPEED * 0.2) n x0)) =
          wrapX BACKGROUND_SEGMENT_WIDTH
            (scrollIterX BACKGROUND_SEGMENT_WIDTH (-SPEED * 0.2) n x0)) := by
  have hframe : ∀ (p : Bool) (dt : ℚ) (w : World),
      (frameUpdate p dt w).floors = w.floors.map scrollSegment := by
    intro p dt w
    cases hm : w.mode
    · rw [frameUpdate_menu p dt w hm]; simp
    · rw [frameUpdate_ingame p dt w hm]; simp
  refine ⟨hframe, ?_, ?_, ?_, ?_⟩
  · exact fun n => scrollIterX_diff _ _ _ _ 0 (by norm_num) n
  · exact fun n => scrollIterX_diff _ _ _ _ 0 (by norm_num) n
  · intro n x0 hx0
    have hlb : -WINDOW_WIDTH / 2 - FLOOR_SEGMENT_WIDTH ≤
        scrollIterX FLOOR_SEGMENT_WIDTH (-SPEED) n x0 := by
      refine scrollIterX_lb _ _ _ (by norm_num [FLOOR_SEGMENT_WIDTH, SPEED]) ?_ n
      rcases hx0 with h | h <;> rw [h] <;>
        norm_num [FLOOR_SEGMENT_WIDTH, WINDOW_WIDTH]
    rw [wrapX_eq_self _ _ hlb]
    exact wrapX_eq_self _ _ hlb
  · intro n x0 hx0
    have hlb : -WINDOW_WIDTH / 2 - BACKGROUND_SEGMENT_WIDTH ≤
        scrollIterX BACKGROUND_SEGMENT_WIDTH (-SPEED * 0.2) n x0 := by
      refine scrollIterX_lb _ _ _ (by norm_num [BACKGROUND_SEGMENT_WIDTH, SPEED]) ?_ n
      rcases hx0 with h | h <;> rw [h] <;>
        norm_num [BACKGROUND_SEGMENT_WIDTH, WINDOW_WIDTH]
    rw [wrapX_eq_self _ _ hlb]
    exact wrapX_eq_self _ _ hlb

/-- Witness for C7: the idempotent wrap law after one frame of the ground
layer's first segment. -/
theorem scroll_layer_spec_witness :
    wrapX FLOOR_SEGMENT_WIDTH
        (wrapX FLOOR_SEGMENT_WIDTH (scrollIterX FLOOR_SEGMENT_WIDTH (-SPEED) 1
          (-WINDOW_WIDTH / 2 + FLOOR_SEGMENT_WIDTH))) =
      wrapX FLOOR_SEGMENT_WIDTH (scrollIterX FLOOR_SEGMENT_WIDTH (-SPEED) 1
        (-WINDOW_WIDTH / 2 + FLOOR_SEGMENT_WIDTH)) :=
  scroll_layer_spec.2.2.2.1 1 _ (Or.inl rfl)

/-! ### Reachability invariants (claims C2 and C10) -/

@[simp] theorem spawn_pipes_player (g : ℚ) (w : World) :
    (spawn_pipes_system g w).player = w.player := rfl

@[simp] theorem spawn_pipes_mode (g : ℚ) (w : World) :
    (spawn_pipes_system g w).mode = w.mode := rfl

@[simp] theorem spawn_pipes_floors (g : ℚ) (w : World) :
    (spawn_pipes_system g w).floors = w.floors := rfl

@[simp] theorem remove_pipes_player (w : World) :
    (remove_pipes_system w).player = w.player := rfl

@[simp] theorem remove_pipes_mode (w : World) :
    (remove_pipes_system w).mode = w.mode := rfl

@[simp] theorem remove_pipes_floors (w : World) :
    (remove_pipes_system w).floors = w.floors := rfl

@[simp] theorem enterMenu_player_x (w : World) :
    (enterMenu w).player.x = w.player.x := rfl

@[simp] theorem enterMenu_player_vx (w : World) :
    (enterMenu w).player.vx = w.player.vx := rfl

@[simp] theorem enterMenu_player_y (w : World) :
    (enterMenu w).player.y = 0 := rfl

@[simp] theorem enterMenu_player_vy (w : World) :
    (enterMenu w).player.vy = 0 := rfl

@[simp] theorem enterMenu_pipes (w : World) :
    (enterMenu w).pipes = [] := rfl

@[simp] theorem enterMenu_floors (w : World) :
    (enterMenu w).floors = w.floors := rfl

/-- No system of the app ever writes the player's horizontal velocity. -/
theorem step_vx_const {l : SysLabel} {w v : World} (h : Step l w v) :
    v.player.vx = w.player.vx := by
  cases h with
  | frame w p dt hdt =>
      cases hm : w.mode
      · rw [frameUpdate_menu p dt w hm]; simp
      · rw [frameUpdate_ingame p dt w hm]; simp
  | spawnTick w g hm hlo hhi => rfl
  | removeTick w hm => rfl
  | collideTick w hm =>
      unfold game_over_system; split <;> rfl

/-- With zero horizontal velocity, no step moves the player horizontally. -/
theorem step_x_const {l : SysLabel} {w v : World} (h : Step l w v)
    (h0 : w.player.vx = 0) : v.player.x = w.player.x := by
  cases h with
  | frame w p dt hdt =>
      cases hm : w.mode
      · rw [frameUpdate_menu p dt w hm]; simp [h0]
      · rw [frameUpdate_ingame p dt w hm]; simp [h0]
  | spawnTick w g hm hlo hhi => rfl
  | removeTick w hm => rfl
  | collideTick w hm =>
      unfold game_over_system; split <;> rfl

/-- In every reachable world the player sits at `x = -150` with zero
horizontal velocity. -/
theorem reachable_player_x_vx (w : World) (h : Reachable w) :
    w.player.x = -150 ∧ w.player.vx = 0 := by
  induction h with
  | refl => exact ⟨rfl, rfl⟩
  | tail hab hbc ih =>
      obtain ⟨l, hl⟩ := hbc
      exact ⟨(step_x_const hl ih.2).trans ih.1, (step_vx_const hl).trans ih.2⟩

/-! ### Claim C10 -/

/-- Claim C10: the avatar is created at `x = -150` with horizontal velocity 0;
no scheduler step ever changes its horizontal velocity, no scheduler step
moves it horizontally while its horizontal velocity is zero, and consequently
in every reachable world its x-position equals `-150`. -/
theorem player_horizontal_invariant :
    initialPlayer.x = -150 ∧ initialPlayer.vx = 0 ∧
    (∀ (l : SysLabel) (w v : World), Step l w v → v.player.vx = w.player.vx) ∧
    (∀ (l : SysLabel) (w v : World), Step l w v → w.player.vx = 0 →
      v.player.x = w.player.x) ∧
    (∀ w : World, Reachable w → w.player.x = -150) :=
  ⟨rfl, rfl, fun _ _ _ h => step_vx_const h, fun _ _ _ h h0 => step_x_const h h0,
   fun w h => (reachable_player_x_vx w h).1⟩

/-- Witness for C10 at the initial world. -/
theorem player_horizontal_invariant_witness : initialWorld.player.x = -150 :=
  player_horizontal_invariant.2.2.2.2 initialWorld Relation.ReflTransGen.refl

/-! ### Claim C2 -/

/-- Claim C2: entering `Menu` from any reachable world yields avatar
`position.y = 0`, velocity `(0, 0)` (the hook zeroes the vertical component,
and the horizontal component is invariantly zero), and zero obstacle entities
remaining, while the avatar's `position.x` is left unchanged by the hook. -/
theorem enter_menu_resets (w : World) (h : Reachable w) :
    (enterMenu w).player.y = 0 ∧
    (enterMenu w).player.vx = 0 ∧
    (enterMenu w).player.vy = 0 ∧
    (enterMenu w).pipes = [] ∧
    (enterMenu w).player.x = w.player.x ∧
    (enterMenu w).mode = GameState.Menu := by
  refine ⟨rfl, ?_, rfl, rfl, rfl, rfl⟩
  exact (reachable_player_x_vx w h).2

/-- Witness for C2 at the initial world. -/
theorem enter_menu_resets_witness :
    (enterMenu initialWorld).player.y = 0 ∧
    (enterMenu initialWorld).player.vx = 0 ∧
    (enterMenu initialWorld).player.vy = 0 ∧
    (enterMenu initialWorld).pipes = [] ∧
    (enterMenu initialWorld).player.x = initialWorld.player.x ∧
    (enterMenu initialWorld).mode = GameState.Menu :=
  enter_menu_resets initialWorld Relation.ReflTransGen.refl

/-! ### Claim C8 -/

/-- The mode after a frame that starts in `Menu`: `InGame` exactly on a flap
rising edge. -/
theorem frameUpdate_mode_menu (p : Bool) (dt : ℚ) (w : World)
    (h : w.mode = GameState.Menu) :
    (frameUpdate p dt w).mode =
      if p then GameState.InGame else GameState.Menu := by
  rw [frameUpdate_menu p dt w h]
  cases p <;> simp [h]

/-- A frame that starts in `InGame` never changes the mode. -/
theorem frameUpdate_mode_ingame (p : Bool) (dt : ℚ) (w : World)
    (h : w.mode = GameState.InGame) :
    (frameUpdate p dt w).mode = GameState.InGame := by
  rw [frameUpdate_ingame p dt w h]
  simp [h]

/-- Net vertical motion of an `InGame` frame without flap input. -/
theorem frameUpdate_y_ingame (dt : ℚ) (w : World)
    (h : w.mode = GameState.InGame) :
    (frameUpdate false dt w).player.y =
      w.player.y + (w.player.vy - 9.8 * dt) := by
  rw [frameUpdate_ingame false dt w h]
  simp

/-- The floor check alone sets the `game_over` flag. -/
theorem gameOverFlag_of_floor (w : World)
    (h : w.player.y < -WINDOW_HEIGHT / 2 + FLOOR_HEIGHT) :
    gameOverFlag w = true := by
  unfold gameOverFlag
  simp [h]

/-- With the flag set, the collision system transitions to `Menu`. -/
theorem game_over_mode_of_flag (w : World) (h : gameOverFlag w = true) :
    (game_over_system w).mode = GameState.Menu := by
  simp [game_over_system, h]

/-- Claim C8: the game-mode machine starts in `Menu`; a step changes the mode
only as `Menu` to `InGame` on a flap-input frame or as `InGame` to `Menu` on a
collision tick whose game-over flag is set; from `Menu` a single flap frame
reaches `InGame`, and from any `InGame` world some sequence of steps reaches
`Menu` (so neither state is terminal). -/
theorem mode_machine :
    initialWorld.mode = GameState.Menu ∧
    (∀ (l : SysLabel) (w v : World), Step l w v → w.mode ≠ v.mode →
      ((w.mode = GameState.Menu ∧ v.mode = GameState.InGame ∧
          ∃ dt, l = SysLabel.frame true dt) ∨
        (w.mode = GameState.InGame ∧ v.mode = GameState.Menu ∧
          l = SysLabel.collideTick ∧ gameOverFlag w = true))) ∧
    (∀ w : World, w.mode = GameState.Menu →
      ∃ v, Step (SysLabel.frame true 0) w v ∧ v.mode = GameState.InGame) ∧
    (∀ w : World, w.mode = GameState.InGame →
      ∃ v, Relation.ReflTransGen StepAny w v ∧ v.mode = GameState.Menu) := by
  refine ⟨rfl, ?_, ?_, ?_⟩
  · intro l w v hstep hne
    cases hstep with
    | frame w p dt hdt =>
        cases hm : w.mode with
        | Menu =>
            rw [hm] at hne
            have hv := frameUpdate_mode_menu p dt w hm
            cases p with
            | false =>
                simp only [Bool.false_eq_true, if_false] at hv
                exact absurd hv.symm hne
            | true =>
                simp only [if_true] at hv
                exact Or.inl ⟨rfl, hv, dt, rfl⟩
        | InGame =>
            rw [hm] at hne
            have hv := frameUpdate_mode_ingame p dt w hm
            exact absurd hv.symm hne
    | spawnTick w g hm hlo hhi => exact absurd rfl hne
    | removeTick w hm => exact absurd rfl hne
    | collideTick w hm =>
        by_cases hf : gameOverFlag w = true
        · exact Or.inr ⟨hm, game_over_mode_of_flag w hf, rfl, hf⟩
        · have heq : game_over_system w = w := by
            simp [game_over_system, hf]
          rw [heq] at hne
          exact absurd rfl hne
  · intro w hmode
    refine ⟨frameUpdate true 0 w, Step.frame w true 0 le_rfl, ?_⟩
    rw [frameUpdate_mode_menu true 0 w hmode]
    rfl
  · intro w hmode
    have hfloor : (-WINDOW_HEIGHT / 2 + FLOOR_HEIGHT : ℚ) = -300 := by
      norm_num [WINDOW_HEIGHT, FLOOR_HEIGHT]
    by_cases hc : w.player.y + w.player.vy ≤ -301
    · have h1mode := frameUpdate_mode_ingame false 0 w hmode
      have h1y := frameUpdate_y_ingame 0 w hmode
      have hflag : gameOverFlag (frameUpdate false 0 w) = true := by
        refine gameOverFlag_of_floor _ ?_
        rw [h1y, hfloor]
        linarith
      refine ⟨game_over_system (frameUpdate false 0 w), ?_,
        game_over_mode_of_flag _ hflag⟩
      exact Relation.ReflTransGen.head ⟨_, Step.frame w false 0 le_rfl⟩
        (Relation.ReflTransGen.single
          ⟨_, Step.collideTick (frameUpdate false 0 w) h1mode⟩)
    · push_neg at hc
      set dt := (w.player.y + w.player.vy + 301) / (9.8 : ℚ) with hdtdef
      have hdt : 0 ≤ dt := by
        apply div_nonneg <;> [linarith; norm_num]
      have hmul : (9.8 : ℚ) * dt = w.player.y + w.player.vy + 301 := by
        rw [hdtdef]
        exact mul_div_cancel₀ _ (by norm_num)
      have h1mode := frameUpdate_mode_ingame false dt w hmode
      have h1y := frameUpdate_y_ingame dt w hmode
      have hflag : gameOverFlag (frameUpdate false dt w) = true := by
        refine gameOverFlag_of_floor _ ?_
        rw [h1y, hfloor]
        linarith
      refine ⟨game_over_system (frameUpdate false dt w), ?_,
        game_over_mode_of_flag _ hflag⟩
      exact Relation.ReflTransGen.head ⟨_, Step.frame w false dt hdt⟩
        (Relation.ReflTransGen.single
          ⟨_, Step.collideTick (frameUpdate false dt w) h1mode⟩)

/-- Witness for C8: from the initial (`Menu`) world one flap frame reaches
`InGame`, and from a concrete `InGame` world some steps reach `Menu`. -/
theorem mode_machine_witness :
    (∃ v, Step (SysLabel.frame true 0) initialWorld v ∧
      v.mode = GameState.InGame) ∧
    (∃ v, Relation.ReflTransGen StepAny
        { initialWorld with mode := GameState.InGame } v ∧
      v.mode = GameState.Menu) :=
  ⟨mode_machine.2.2.1 initialWorld rfl,
   mode_machine.2.2.2 { initialWorld with mode := GameState.InGame } rfl⟩

/-! ### Claim C9 -/

@[simp] theorem enterMenu_player_rot (w : World) :
    (enterMenu w).player.rotation = w.player.rotation := rfl

/-- With the flag set, `game_over_system` is the `Menu` transition. -/
theorem game_over_eq_enterMenu (w : World) (h : gameOverFlag w = true) :
    game_over_system w = enterMenu w := by
  simp [game_over_system, h]

/-- A `Menu` frame leaves the vertical velocity alone (no flap, no gravity). -/
theorem frameUpdate_vy_menu (p : Bool) (dt : ℚ) (w : World)
    (h : w.mode = GameState.Menu) :
    (frameUpdate p dt w).player.vy = w.player.vy := by
  rw [frameUpdate_menu p dt w h]; simp

/-- A `Menu` frame still integrates: `y` advances by the velocity. -/
theorem frameUpdate_y_menu (p : Bool) (dt : ℚ) (w : World)
    (h : w.mode = GameState.Menu) :
    (frameUpdate p dt w).player.y = w.player.y + w.player.vy := by
  rw [frameUpdate_menu p dt w h]; simp

/-- A `Menu` frame still tilts: the rotation is recomputed from the vertical
velocity. -/
theorem frameUpdate_rot_menu (p : Bool) (dt : ℚ) (w : World)
    (h : w.mode = GameState.Menu) :
    (frameUpdate p dt w).player.rotation = tiltOverPi w.player.vy := by
  rw [frameUpdate_menu p dt w h]; simp

/-- Vertical velocity across an `InGame` frame: flap overwrite (if pressed)
then gravity. -/
theorem frameUpdate_vy_ingame (p : Bool) (dt : ℚ) (w : World)
    (h : w.mode = GameState.InGame) :
    (frameUpdate p dt w).player.vy =
      (if p then FLAP_SPEED else w.player.vy) - 9.8 * dt := by
  rw [frameUpdate_ingame p dt w h]
  cases p <;> simp

/-- Vertical position across an `InGame` frame. -/
theorem frameUpdate_y_ingame2 (p : Bool) (dt : ℚ) (w : World)
    (h : w.mode = GameState.InGame) :
    (frameUpdate p dt w).player.y =
      w.player.y + ((if p then FLAP_SPEED else w.player.vy) - 9.8 * dt) := by
  rw [frameUpdate_ingame p dt w h]
  cases p <;> simp

/-- Rotation across an `InGame` frame. -/
theorem frameUpdate_rot_ingame (p : Bool) (dt : ℚ) (w : World)
    (h : w.mode = GameState.InGame) :
    (frameUpdate p dt w).player.rotation =
      tiltOverPi ((if p then FLAP_SPEED else w.player.vy) - 9.8 * dt) := by
  rw [frameUpdate_ingame p dt w h]
  cases p <;> simp

/-- A reachable `Menu` world whose avatar still carries the tilt of its final
fall: flap to start, flap once, fall for a long frame, collide with the
floor. -/
def menuCexWorld : World :=
  game_over_system (frameUpdate false 100 (frameUpdate true 0
    (frameUpdate true 0 initialWorld)))

/-- Counterexample to claim C9 as stated: `menuCexWorld` is reachable and in
`Menu` mode, yet a frame in `Menu` mode mutates the avatar's rotation —
`tilt_with_vel_system` is registered without a mode condition, so the Tilt
operation does run (and mutate state) while mode = Menu. -/
theorem tilt_menu_cex :
    Reachable menuCexWorld ∧
    menuCexWorld.mode = GameState.Menu ∧
    (frameUpdate false 0 menuCexWorld).player.rotation ≠
      menuCexWorld.player.rotation := by
  have hm1 : (frameUpdate true 0 initialWorld).mode = GameState.InGame := by
    rw [frameUpdate_mode_menu true 0 initialWorld rfl]; simp
  have hvy1 : (frameUpdate true 0 initialWorld).player.vy = 0 :=
    frameUpdate_vy_menu true 0 initialWorld rfl
  have hy1 : (frameUpdate true 0 initialWorld).player.y = 0 := by
    rw [frameUpdate_y_menu true 0 initialWorld rfl]
    norm_num [initialWorld, initialPlayer]
  have hm2 : (frameUpdate true 0 (frameUpdate true 0 initialWorld)).mode =
      GameState.InGame := frameUpdate_mode_ingame true 0 _ hm1
  have hvy2 : (frameUpdate true 0 (frameUpdate true 0 initialWorld)).player.vy =
      FLAP_SPEED := by
    rw [frameUpdate_vy_ingame true 0 _ hm1]; norm_num
  have hy2 : (frameUpdate true 0 (frameUpdate true 0 initialWorld)).player.y =
      FLAP_SPEED := by
    rw [frameUpdate_y_ingame2 true 0 _ hm1, hy1]; norm_num
  have hm3 : (frameUpdate false 100 (frameUpdate true 0
      (frameUpdate true 0 initialWorld))).mode = GameState.InGame :=
    frameUpdate_mode_ingame false 100 _ hm2
  have hy3 : (frameUpdate false 100 (frameUpdate true 0
      (frameUpdate true 0 initialWorld))).player.y = -971 := by
    rw [frameUpdate_y_ingame2 false 100 _ hm2, hy2, hvy2]
    norm_num [FLAP_SPEED]
  have hrot3 : (frameUpdate false 100 (frameUpdate true 0
      (frameUpdate true 0 initialWorld))).player.rotation =
      tiltOverPi (FLAP_SPEED - 9.8 * 100) := by
    rw [frameUpdate_rot_ingame false 100 _ hm2, hvy2]
    simp
  have hflag : gameOverFlag (frameUpdate false 100 (frameUpdate true 0
      (frameUpdate true 0 initialWorld))) = true := by
    refine gameOverFlag_of_floor _ ?_
    rw [hy3]
    norm_num [WINDOW_HEIGHT, FLOOR_HEIGHT]
  have hmenu : menuCexWorld = enterMenu (frameUpdate false 100
      (frameUpdate true 0 (frameUpdate true 0 initialWorld))) :=
    game_over_eq_enterMenu _ hflag
  refine ⟨?_, ?_, ?_⟩
  · refine Relation.ReflTransGen.tail (Relation.ReflTransGen.tail
      (Relation.ReflTransGen.tail (Relation.ReflTransGen.single
        ⟨_, Step.frame initialWorld true 0 le_rfl⟩)
        ⟨_, Step.frame _ true 0 le_rfl⟩)
        ⟨_, Step.frame _ false 100 (by norm_num)⟩)
      ⟨_, Step.collideTick _ hm3⟩
  · rw [hmenu]; rfl
  · have hm4 : menuCexWorld.mode = GameState.Menu := by rw [hmenu]; rfl
    have hvy4 : menuCexWorld.player.vy = 0 := by rw [hmenu]; rfl
    have hrot4 : menuCexWorld.player.rotation =
        tiltOverPi (FLAP_SPEED - 9.8 * 100) := by
      rw [hmenu, enterMenu_player_rot, hrot3]
    rw [frameUpdate_rot_menu false 0 menuCexWorld hm4, hvy4, hrot4]
    norm_num [tiltOverPi, FLAP_SPEED]

/-- Claim C9 (amended: Flap and Gravity execute only while mode = InGame;
Tilt, which the source registers with no mode condition, runs every frame in
both modes, as Integration does): across any frame, in either mode, the
avatar's position integrates its velocity and its rotation is recomputed from
its vertical velocity (so Integration and Tilt ran), the pipes integrate
their velocity, the vertical velocity is untouched in `Menu` (Flap and
Gravity did not run), and in `InGame` it equals the flap overwrite (if
pressed) minus the gravity term. -/
theorem system_mode_gating (w : World) (pressed : Bool) (dt : ℚ) :
    (frameUpdate pressed dt w).player.y
        = w.player.y + (frameUpdate pressed dt w).player.vy ∧
    (frameUpdate pressed dt w).player.rotation
        = tiltOverPi ((frameUpdate pressed dt w).player.vy) ∧
    (frameUpdate pressed dt w).pipes = w.pipes.map movePipe ∧
    (w.mode = GameState.Menu →
      (frameUpdate pressed dt w).player.vy = w.player.vy) ∧
    (w.mode = GameState.InGame →
      (frameUpdate pressed dt w).player.vy
        = (if pressed then FLAP_SPEED else w.player.vy) - 9.8 * dt) := by
  refine ⟨?_, ?_, ?_, frameUpdate_vy_menu pressed dt w,
    frameUpdate_vy_ingame pressed dt w⟩
  · cases hm : w.mode
    · rw [frameUpdate_menu pressed dt w hm]; simp
    · rw [frameUpdate_ingame pressed dt w hm]; simp
  · cases hm : w.mode
    · rw [frameUpdate_menu pressed dt w hm]; simp
    · rw [frameUpdate_ingame pressed dt w hm]; simp
  · cases hm : w.mode
    · rw [frameUpdate_menu pressed dt w hm]; simp
    · rw [frameUpdate_ingame pressed dt w hm]; simp

/-- Witness for C9 (amended): in the initial (`Menu`) world a flap press does
not change the vertical velocity — Flap does not run in `Menu`. -/
theorem system_mode_gating_witness :
    (frameUpdate true 0 initialWorld).player.vy = initialWorld.player.vy :=
  (system_mode_gating initialWorld true 0).2.2.2.1 rfl

end Flappy
